import Mathlib

/-!
Verification development for the UPG desktop Tauri backend
(`packages/desktop/src-tauri/src/lib.rs`).

The Rust source is shallowly embedded: pure argument construction is
translated directly; effectful steps (process spawning, JSON parsing by
serde, filesystem state) are made explicit inputs of the embedded
functions, so every function here is executable and total.  Machine
integers are modelled as `Nat` with explicit `% 2 ^ w` where Rust would
wrap (`u64` seed arithmetic, `len() as u32`).
-/

namespace UPG

/-- Model of `serde_json::Value`. -/
inductive Json where
  | null : Json
  | jbool : Bool → Json
  | jnum : Int → Json
  | jstr : String → Json
  | jarr : List Json → Json
  | jobj : List (String × Json) → Json

/-- Model of `Value::get(key)` on an object: first binding for the key. -/
def Json.get : Json → String → Option Json
  | .jobj fields, key => fields.lookup key
  | _, _ => none

/-- Model of `Value::as_bool`. -/
def Json.asBool : Json → Option Bool
  | .jbool b => some b
  | _ => none

/-- Model of `Value::as_str`. -/
def Json.asStr : Json → Option String
  | .jstr s => some s
  | _ => none

/-- Model of `Value::as_array`. -/
def Json.asArray : Json → Option (List Json)
  | .jarr xs => some xs
  | _ => none

/-- Model of `TechStackConfig` (lib.rs lines 27-35). -/
structure TechStackConfig where
  archetype : Option String
  language : Option String
  framework : Option String
  database : Option String
  packaging : Option String
  cicd : Option String

/-- Model of `EnrichmentConfig` (lib.rs lines 38-63). -/
structure EnrichmentConfig where
  enabled : Bool
  depth : String
  cicd : Option Bool
  release : Option Bool
  fill_logic : Option Bool
  tests : Option Bool
  docker_prod : Option Bool
  linting : Option Bool
  env_files : Option Bool
  docs : Option Bool

/-- Model of `GenerationResult` (lib.rs lines 85-92). -/
structure GenerationResult where
  success : Bool
  message : String
  files_generated : List String
  output_path : String
  duration_ms : Nat

/-- Model of `SeedEntry` (lib.rs lines 724-732). -/
structure SeedEntry where
  seed : Nat
  stack : Json
  files : List String
  validated_at : String
  tags : List String

/-- Model of `RegistryData` (lib.rs lines 735-742). -/
structure RegistryData where
  version : String
  generated_at : String
  total_entries : Nat
  entries : List SeedEntry

/-- Model of `CLIPreviewData` (lib.rs lines 762-769); the `HashMap<String, String>`
of files is modelled as an association list. -/
structure CLIPreviewData where
  seed : Nat
  id : String
  stack : Json
  files : List (String × String)

/-- Model of `CLIPreviewResponse` (lib.rs lines 755-760). -/
structure CLIPreviewResponse where
  success : Bool
  data : Option CLIPreviewData
  error : Option String

/-- Model of `PreviewResult` (lib.rs lines 716-721). -/
structure PreviewResult where
  files : List (String × String)
  stack : Option Json
  seed : Option Nat

/-- Model of `build_cli_args` (lib.rs lines 167-245), as the same sequence of
conditional pushes onto the argument vector. -/
def build_cli_args (seed : Nat) (output_path : String)
    (stack : Option TechStackConfig) (enrichment : Option EnrichmentConfig) :
    List String :=
  let args := ["seed", toString seed, "--output", output_path, "--json"]
  let args :=
    match stack with
    | none => args
    | some config =>
      let args := match config.archetype with
        | none => args
        | some v => args ++ ["--archetype", v]
      let args := match config.language with
        | none => args
        | some v => args ++ ["--language", v]
      let args := match config.framework with
        | none => args
        | some v => args ++ ["--framework", v]
      let args := match config.database with
        | none => args
        | some v => args ++ ["--database", v]
      let args := match config.packaging with
        | none => args
        | some v => args ++ ["--packaging", v]
      let args := match config.cicd with
        | none => args
        | some v => args ++ ["--cicd", v]
      args
  let args :=
    match enrichment with
    | none => args
    | some enrich =>
      if enrich.enabled then
        let args := args ++ ["--enrich", "--enrich-depth", enrich.depth]
        let args := if enrich.cicd = some false then args ++ ["--no-enrich-cicd"] else args
        let args := if enrich.release = some false then args ++ ["--no-enrich-release"] else args
        let args := if enrich.fill_logic = some false then args ++ ["--no-enrich-logic"] else args
        let args := if enrich.tests = some false then args ++ ["--no-enrich-tests"] else args
        let args := if enrich.docker_prod = some false then args ++ ["--no-enrich-docker-prod"] else args
        let args := if enrich.linting = some false then args ++ ["--no-enrich-linting"] else args
        let args := if enrich.env_files = some false then args ++ ["--no-enrich-env"] else args
        let args := if enrich.docs = some false then args ++ ["--no-enrich-docs"] else args
        args
      else args
  args

/-- The preview argument construction inside `preview_generation`
(lib.rs lines 789-815): only archetype, language and framework are
forwarded from the stack, and for enrichment only the `--enrich` and
`--enrich-depth` flags are emitted. -/
def build_preview_cli_args (seed : Nat) (stack : Option TechStackConfig)
    (enrichment : Option EnrichmentConfig) : List String :=
  let cli_args := ["preview", toString seed]
  let cli_args :=
    match stack with
    | none => cli_args
    | some config =>
      let cli_args := match config.archetype with
        | none => cli_args
        | some v => cli_args ++ ["--archetype", v]
      let cli_args := match config.language with
        | none => cli_args
        | some v => cli_args ++ ["--language", v]
      let cli_args := match config.framework with
        | none => cli_args
        | some v => cli_args ++ ["--framework", v]
      cli_args
  let cli_args :=
    match enrichment with
    | none => cli_args
    | some enrich =>
      if enrich.enabled then
        cli_args ++ ["--enrich", "--enrich-depth", enrich.depth]
      else cli_args
  cli_args

/-! Specification-side argument decompositions, written from the spec's
words (§4.3): one `--<field> <value>` pair per present field, in the
fixed field order, negation flags only for sub-flags explicitly false. -/

/-- Spec-side: a flag/value pair for a present field, nothing for an
absent one. -/
def fieldPair (flag : String) : Option String → List String
  | none => []
  | some v => [flag, v]

/-- Spec-side: a negation flag for a sub-flag explicitly set false. -/
def negFlag (flag : String) : Option Bool → List String
  | some false => [flag]
  | _ => []

/-- Spec-side: the stack segment of the argument vector, in the fixed
order archetype, language, framework, database, packaging, cicd. -/
def stackPairs : Option TechStackConfig → List String
  | none => []
  | some c =>
    fieldPair "--archetype" c.archetype ++ fieldPair "--language" c.language ++
    fieldPair "--framework" c.framework ++ fieldPair "--database" c.database ++
    fieldPair "--packaging" c.packaging ++ fieldPair "--cicd" c.cicd

/-- Spec-side: the enrichment segment of the generation argument
vector. -/
def enrichArgs : Option EnrichmentConfig → List String
  | none => []
  | some e =>
    if e.enabled then
      ["--enrich", "--enrich-depth", e.depth] ++
      negFlag "--no-enrich-cicd" e.cicd ++
      negFlag "--no-enrich-release" e.release ++
      negFlag "--no-enrich-logic" e.fill_logic ++
      negFlag "--no-enrich-tests" e.tests ++
      negFlag "--no-enrich-docker-prod" e.docker_prod ++
      negFlag "--no-enrich-linting" e.linting ++
      negFlag "--no-enrich-env" e.env_files ++
      negFlag "--no-enrich-docs" e.docs
    else []

/-- Spec-side: the stack segment actually produced by the preview path:
only the first three fields of the fixed order. -/
def previewStackPairs : Option TechStackConfig → List String
  | none => []
  | some c =>
    fieldPair "--archetype" c.archetype ++ fieldPair "--language" c.language ++
    fieldPair "--framework" c.framework

/-- Spec-side: the enrichment segment produced by the preview path. -/
def previewEnrichArgs : Option EnrichmentConfig → List String
  | none => []
  | some e => if e.enabled then ["--enrich", "--enrich-depth", e.depth] else []

/-- Split a character list at every newline; a trailing newline yields a
final empty segment, mirroring `String.splitOn "\n"`. -/
def splitNL : List Char → List (List Char)
  | [] => [[]]
  | c :: cs =>
    let rest := splitNL cs
    if c = '\n' then [] :: rest
    else
      match rest with
      | [] => [[c]]
      | seg :: segs => (c :: seg) :: segs

/-- Remove one trailing carriage return, as Rust's `str::lines` does for
segments terminated by `\r\n`. -/
def stripCRChars (cs : List Char) : List Char :=
  if cs.getLast? = some '\r' then cs.dropLast else cs

/-- Model of Rust's `str::lines`: split at `\n`, treat `\r\n` as a
terminator, and do not produce a final empty line for a trailing
terminator. -/
def rustLines (s : String) : List String :=
  let segs := splitNL s.data
  let k := segs.length
  let segs := (segs.enum).map (fun p => if p.1 + 1 < k then stripCRChars p.2 else p.2)
  let segs := if segs.getLast? = some [] then segs.dropLast else segs
  segs.map String.mk

/-- Model of `ExitStatus::success()` on Unix: the exit code is zero. -/
def statusSuccess (code : Option Int) : Bool :=
  code = some (0 : Int)

/-- Captured output of a spawned process: exit code plus the two decoded
streams. -/
structure RawOutput where
  code : Option Int
  stdout : String
  stderr : String

/-- Model of `execute_cli_internal` (lib.rs lines 248-267).  The spawn itself is
the effectful part, so its result is an explicit input: `none` means the
OS could not spawn the executable at all (Rust's `Command::output`
returned `Err`), `some o` means the process ran to completion with
captured output `o`. -/
def execute_cli_internal (spawn : Option RawOutput) (cmd : String)
    (args : List String) : Except String (Bool × String × String × Option Int) :=
  match spawn with
  | none => .error ("Failed to execute CLI. Command: " ++ cmd ++ " " ++ toString args)
  | some o => .ok (statusSuccess o.code, o.stdout, o.stderr, o.code)

/-- Rust `format!("{:?}", exit_code)` for an `Option<i32>`. -/
def debugOptionInt : Option Int → String
  | none => "None"
  | some n => "Some(" ++ toString n ++ ")"

/-- The success message `format!("Generated {} files for seed {} in {}ms", ..)`. -/
def successMessage (n seed duration_ms : Nat) : String :=
  "Generated " ++ toString n ++ " files for seed " ++ toString seed ++
    " in " ++ toString duration_ms ++ "ms"

/-- The response-interpretation tail of `generate_project`
(lib.rs lines 358-444).  `parsed` is the result of
`serde_json::from_str::<Value>(&stdout)` (the error value is discarded by
the source's `if let Ok`), `success`/`stdout`/`stderr`/`exit_code` come
from `execute_cli_internal`, and `output_exists`/`disk_files` stand for
`resolved_output.exists()` and `list_files_recursive(&resolved_output)`.
Every branch of the source returns `Ok(..)`. -/
def generate_project_interpret (parsed : Option Json) (success : Bool)
    (stdout stderr : String) (exit_code : Option Int) (seed : Nat)
    (resolved_output_str : String) (duration_ms : Nat)
    (output_exists : Bool) (disk_files : List String) :
    Except String GenerationResult :=
  match parsed with
  | some response =>
    let cli_success := ((response.get "success").bind Json.asBool).getD false
    let files_generated :=
      (((response.get "files_generated").bind Json.asArray).map
        (fun files => files.filterMap Json.asStr)).getD []
    if cli_success then
      .ok { success := true
            message := successMessage files_generated.length seed duration_ms
            files_generated := files_generated
            output_path := resolved_output_str
            duration_ms := duration_ms }
    else
      let error_msg := ((response.get "error").bind Json.asStr).getD "Generation failed"
      .ok { success := false
            message := error_msg
            files_generated := []
            output_path := resolved_output_str
            duration_ms := duration_ms }
  | none =>
    if success then
      let files_generated := if output_exists then disk_files else []
      .ok { success := true
            message := successMessage files_generated.length seed duration_ms
            files_generated := files_generated
            output_path := resolved_output_str
            duration_ms := duration_ms }
    else
      let error_msg :=
        if stderr ≠ "" then ((rustLines stderr).getLast?).getD "Generation failed"
        else if stdout ≠ "" then ((rustLines stdout).getLast?).getD "Generation failed"
        else "CLI exited with code " ++ debugOptionInt exit_code
      .ok { success := false
            message := error_msg
            files_generated := []
            output_path := resolved_output_str
            duration_ms := duration_ms }

/-- The response-interpretation tail of `preview_generation`
(lib.rs lines 821-846).  `parsed` is the result of
`serde_json::from_str::<CLIPreviewResponse>(&stdout)`, carrying the serde
error text on failure (the source interpolates it into its own error). -/
def preview_interpret (success : Bool) (stdout stderr : String)
    (parsed : Except String CLIPreviewResponse) :
    Except String PreviewResult :=
  if ¬ success then
    .error ("Preview failed: " ++ stderr)
  else
    match parsed with
    | .error e => .error ("Failed to parse CLI output: " ++ e ++ ". stdout: " ++ stdout)
    | .ok response =>
      if response.success then
        match response.data with
        | none => .error "Missing data in successful response"
        | some data =>
          .ok { files := data.files, stack := some data.stack, seed := some data.seed }
      else
        .error (response.error.getD "Unknown error")

/-- Model of `str::starts_with`, computed structurally on the character data. -/
def strStarts (pre s : String) : Bool :=
  pre.data.isPrefixOf s.data

/-- Rust `Path::join` for the non-absolute second operand (the only case
in which the source calls it). -/
def pathJoin (base p : String) : String :=
  if base.data.getLast? = some '/' then base ++ p else base ++ "/" ++ p

/-- Model of `resolve_output_path` (lib.rs lines 297-315).  The home-directory
lookup (`app.path().home_dir()`) and the current-directory lookup
(`std::env::current_dir()`) are effectful, so their results are explicit
inputs; paths are Unix-style, where absolute means starting with `/`. -/
def resolve_output_path (output_path : String) (home_dir : Option String)
    (cwd : Option String) : Except String String :=
  let cleaned := if strStarts "./" output_path then output_path.drop 2 else output_path
  if strStarts "/" cleaned then
    .ok cleaned
  else
    match home_dir with
    | some h => .ok (pathJoin h cleaned)
    | none =>
      match cwd with
      | some c => .ok (pathJoin c cleaned)
      | none => .error "Failed to resolve output path"

/-- State of the registry file on disk, with the serde parse of its
content made explicit: `present (.ok r)` is a readable file parsing to
`r`, `present (.error e)` a readable but unparsable file, `unreadable` a
file whose read itself fails. -/
inductive FileState where
  | absent : FileState
  | unreadable : String → FileState
  | present : Except String RegistryData → FileState

/-- The empty, version-stamped registry the source falls back to
(lib.rs lines 1120-1132), with `generated_at` stamped `now`. -/
def emptyRegistry (now : String) : RegistryData :=
  { version := "1.0.0", generated_at := now, total_entries := 0, entries := [] }

/-- The registry-loading step of `run_sweeper` (lib.rs lines 1117-1133):
an absent file and an unparsable file both yield the empty registry; only
a failing read is a hard error. -/
def load_registry_sweeper (fs : FileState) (now : String) :
    Except String RegistryData :=
  match fs with
  | .absent => .ok (emptyRegistry now)
  | .unreadable msg => .error ("Failed to read registry: " ++ msg)
  | .present (.error _) => .ok (emptyRegistry now)
  | .present (.ok r) => .ok r

/-- Model of `get_seeds` (lib.rs lines 852-868): an absent file yields the empty
list, but an unparsable file is a hard error. -/
def get_seeds (fs : FileState) : Except String (List SeedEntry) :=
  match fs with
  | .absent => .ok []
  | .unreadable msg => .error ("Failed to read registry: " ++ msg)
  | .present (.error e) => .error ("Failed to parse registry: " ++ e)
  | .present (.ok r) => .ok r.entries

/-- The merge step of `run_sweeper` (lib.rs lines 1135-1145): the set of
already-present seeds is computed once, each new entry is appended only
if its seed is not in that set, then `total_entries` is recomputed
(`len() as u32`, hence the `% 2 ^ 32`) and `generated_at` refreshed. -/
def mergeRegistry (registry : RegistryData) (entries : List SeedEntry)
    (now : String) : RegistryData :=
  let existing_seeds := registry.entries.map (fun e => e.seed)
  let merged := registry.entries ++
    entries.filter (fun e => !decide (e.seed ∈ existing_seeds))
  { version := registry.version
    generated_at := now
    total_entries := merged.length % 2 ^ 32
    entries := merged }

/-- Tag extraction from a stack value (lib.rs lines 1085-1094):
language, framework, archetype, in that order, skipping absent fields. -/
def extractTags (stack : Json) : List String :=
  (match (stack.get "language").bind Json.asStr with
   | some lang => [lang]
   | none => []) ++
  (match (stack.get "framework").bind Json.asStr with
   | some fw => [fw]
   | none => []) ++
  (match (stack.get "archetype").bind Json.asStr with
   | some arch => [arch]
   | none => [])

/-- The `SeedEntry` built for a validated preview (lib.rs lines
1081-1102).  The `files` of the entry are the keys of the preview's file
map (modelled in association-list order) and `validated_at` is the
current timestamp `now`. -/
def mkSeedEntry (seed : Nat) (data : CLIPreviewData) (now : String) : SeedEntry :=
  { seed := seed
    stack := data.stack
    files := data.files.map (fun f => f.1)
    validated_at := now
    tags := extractTags data.stack }

/-- Outcome of one sweeper iteration's `execute_cli_internal` call plus
serde parse: `spawnFail` is a spawn error (propagated by `?`), `ran`
carries the process's exit success and the parse of its stdout (the
parse error value is discarded by the source's `if let Ok`). -/
inductive SweepStep where
  | spawnFail : String → SweepStep
  | ran : Bool → Option CLIPreviewResponse → SweepStep

/-- The collection loop of `run_sweeper` (lib.rs lines 1061-1107):
iterations `0, 1, …, count-1` in order, seed `start + i` with `u64`
wrap-around, an entry pushed only when the process succeeded, its stdout
parsed, the payload's `success` flag is set and `data` is present. -/
def sweepLoop (step : Nat → SweepStep) (start : Nat) (now : String) :
    Nat → Except String (List SeedEntry)
  | 0 => .ok []
  | n + 1 =>
    match sweepLoop step start now n with
    | .error e => .error e
    | .ok prev =>
      match step n with
      | .spawnFail msg => .error ("Failed to execute CLI. " ++ msg)
      | .ran ok parsed =>
        if ok then
          match parsed with
          | some response =>
            if response.success then
              match response.data with
              | some data => .ok (prev ++ [mkSeedEntry ((start + n) % 2 ^ 64) data now])
              | none => .ok prev
            else .ok prev
          | none => .ok prev
        else .ok prev

/-- Model of `run_sweeper` (lib.rs lines 1051-1153): run the collection loop,
load the registry (self-healing on corruption), merge, and return the
validated entries; the merged document is the one written back, returned
here as the second component.  Directory creation and the final write
are modelled as succeeding — their failures are environment faults
outside the claims under study. -/
def run_sweeper_model (step : Nat → SweepStep) (count : Nat)
    (start_seed : Option Nat) (fs : FileState) (now : String) :
    Except String (List SeedEntry × RegistryData) := do
  let start := start_seed.getD 1
  let entries ← sweepLoop step start now count
  let registry ← load_registry_sweeper fs now
  .ok (entries, mergeRegistry registry entries now)

/-! Further specification-side definitions, written from the spec's
words, for comparison with the embedded source. -/

/-- Spec-side: the last non-empty line of a string (§4.5 step 4). -/
def lastNonEmptyLine (s : String) : Option String :=
  ((rustLines s).filter (fun l => !l.isEmpty)).getLast?

/-- The string elements of a payload's `files_generated` array (empty
when the field is absent or not an array). -/
def payloadFiles (response : Json) : List String :=
  (((response.get "files_generated").bind Json.asArray).map
    (fun files => files.filterMap Json.asStr)).getD []

/-- The payload's embedded `success` flag as the source reads it
(`unwrap_or(false)`). -/
def cliSuccessFlag (response : Json) : Bool :=
  ((response.get "success").bind Json.asBool).getD false

/-- Spec-side path resolution, following §4.1's words: strip one leading
`./`, return absolute paths unchanged, otherwise join onto the home
directory, otherwise onto the current directory, and fail only when both
lookups fail. -/
def resolveSpec (raw : String) (home_dir cwd : Option String) :
    Except String String :=
  let stripped := if strStarts "./" raw then raw.drop 2 else raw
  if strStarts "/" stripped then .ok stripped
  else
    match home_dir, cwd with
    | some h, _ => .ok (pathJoin h stripped)
    | none, some c => .ok (pathJoin c stripped)
    | none, none => .error "Failed to resolve output path"

/-- Spec-side: the batch of entries a sweep validates, as a direct
filter-map over the seed range. -/
def validatedBatch (step : Nat → SweepStep) (start : Nat) (now : String)
    (count : Nat) : List SeedEntry :=
  (List.range count).filterMap (fun i =>
    match step i with
    | .ran true (some response) =>
      if response.success then
        (response.data).map (fun data => mkSeedEntry ((start + i) % 2 ^ 64) data now)
      else none
    | _ => none)

/-- C3, as stated, fails on the preview path: a present `database` field
emits no pair there.  The sample stack constraining only the database. -/
def dbOnlyStack : TechStackConfig :=
  { archetype := none, language := none, framework := none,
    database := some "postgres", packaging := none, cicd := none }

/-- Sample enrichment config: enabled, with `cicd` explicitly false. -/
def enrichCicdOff : EnrichmentConfig :=
  { enabled := true, depth := "standard", cicd := some false, release := none,
    fill_logic := none, tests := none, docker_prod := none, linting := none,
    env_files := none, docs := none }

/-- Sample success payload carrying an explicit `message` field. -/
def payloadWithMessage : Json :=
  Json.jobj [("success", Json.jbool true),
             ("files_generated", Json.jarr [Json.jstr "a.txt"]),
             ("message", Json.jstr "custom")]

/-- The embedded `success` flag of a parsed stdout payload, `false` when
stdout did not parse. -/
def parsedSuccessFlag : Option Json → Bool
  | some j => cliSuccessFlag j
  | none => false

/-- Sample preview data used by the sweeper witnesses. -/
def sweepData : CLIPreviewData :=
  { seed := 0, id := "s",
    stack := Json.jobj [("language", Json.jstr "rust")],
    files := [("a.txt", "contents")] }

/-- Sample successful preview response used by the sweeper witnesses. -/
def sweepResp : CLIPreviewResponse :=
  { success := true, data := some sweepData, error := none }

/-- A sweeper step function whose every iteration validates. -/
def sweepStepConst : Nat → SweepStep := fun _ => .ran true (some sweepResp)

/-- Registry used by the C10 witness: seed 5 is already present. -/
def preloadedRegistry : RegistryData :=
  { version := "1.0.0", generated_at := "t0", total_entries := 1,
    entries := [mkSeedEntry 5 sweepData "t0"] }

/-! Decomposition lemmas for the argument builders. -/

lemma appendNegFlag (args : List String) (flag : String) (v : Option Bool) :
    (if v = some false then args ++ [flag] else args) = args ++ negFlag flag v := by
  rcases v with _ | b
  · simp [negFlag]
  · cases b <;> simp [negFlag]

lemma build_cli_args_decomp (seed : Nat) (out : String)
    (stack : Option TechStackConfig) (enr : Option EnrichmentConfig) :
    build_cli_args seed out stack enr =
      ["seed", toString seed, "--output", out, "--json"] ++
        stackPairs stack ++ enrichArgs enr := by
  rcases enr with _ | ⟨en, dep, e1, e2, e3, e4, e5, e6, e7, e8⟩
  · rcases stack with _ | ⟨a, l, f, d, p, ci⟩
    · simp [build_cli_args, stackPairs, enrichArgs]
    · rcases a with _ | a <;> rcases l with _ | l <;> rcases f with _ | f <;>
        rcases d with _ | d <;> rcases p with _ | p <;> rcases ci with _ | ci <;>
        simp [build_cli_args, stackPairs, fieldPair, enrichArgs]
  · cases en
    · rcases stack with _ | ⟨a, l, f, d, p, ci⟩
      · simp [build_cli_args, stackPairs, enrichArgs]
      · rcases a with _ | a <;> rcases l with _ | l <;> rcases f with _ | f <;>
          rcases d with _ | d <;> rcases p with _ | p <;> rcases ci with _ | ci <;>
          simp [build_cli_args, stackPairs, fieldPair, enrichArgs]
    · rcases stack with _ | ⟨a, l, f, d, p, ci⟩
      · simp only [build_cli_args]
        simp only [appendNegFlag]
        simp [stackPairs, enrichArgs, List.append_assoc]
      · rcases a with _ | a <;> rcases l with _ | l <;> rcases f with _ | f <;>
          rcases d with _ | d <;> rcases p with _ | p <;> rcases ci with _ | ci <;>
          (simp only [build_cli_args]
           simp only [appendNegFlag]
           simp [stackPairs, fieldPair, enrichArgs, List.append_assoc])

lemma build_preview_cli_args_decomp (seed : Nat)
    (stack : Option TechStackConfig) (enr : Option EnrichmentConfig) :
    build_preview_cli_args seed stack enr =
      ["preview", toString seed] ++ previewStackPairs stack ++ previewEnrichArgs enr := by
  rcases enr with _ | ⟨en, dep, e1, e2, e3, e4, e5, e6, e7, e8⟩
  · rcases stack with _ | ⟨a, l, f, d, p, ci⟩
    · simp [build_preview_cli_args, previewStackPairs, previewEnrichArgs]
    · rcases a with _ | a <;> rcases l with _ | l <;> rcases f with _ | f <;>
        simp [build_preview_cli_args, previewStackPairs, fieldPair, previewEnrichArgs]
  · cases en <;>
    · rcases stack with _ | ⟨a, l, f, d, p, ci⟩
      · simp [build_preview_cli_args, previewStackPairs, previewEnrichArgs]
      · rcases a with _ | a <;> rcases l with _ | l <;> rcases f with _ | f <;>
          simp [build_preview_cli_args, previewStackPairs, fieldPair,
            previewEnrichArgs, List.append_assoc]

/-- C3: counterexample.  For a stack whose only present field is
`database`, the preview argument vector is just `["preview", "7"]` and
contains no `--database postgres` pair, contradicting the claim that
every present field yields exactly one pair in both generation and
preview modes. -/
theorem claim3_counterexample :
    build_preview_cli_args 7 (some dbOnlyStack) none = ["preview", "7"]
    ∧ "--database" ∉ (["preview", "7"] : List String) := by
  refine ⟨rfl, ?_⟩
  decide

/-- C3 (amended): the generation argument vector contains exactly one
`--<field> <value>` pair per present stack field, in the fixed order
archetype, language, framework, database, packaging, cicd, and zero
pairs for absent fields; the preview argument vector does the same for
archetype, language and framework only, and never emits pairs for
database, packaging or cicd. -/
theorem claim3_amended (seed : Nat) (out : String)
    (stack : Option TechStackConfig) (enr : Option EnrichmentConfig) :
    build_cli_args seed out stack enr =
      ["seed", toString seed, "--output", out, "--json"] ++
        stackPairs stack ++ enrichArgs enr
    ∧ build_preview_cli_args seed stack enr =
      ["preview", toString seed] ++ previewStackPairs stack ++ previewEnrichArgs enr :=
  ⟨build_cli_args_decomp seed out stack enr, build_preview_cli_args_decomp seed stack enr⟩

/-- C4: counterexample.  With enrichment enabled and the `cicd` sub-flag
explicitly false, the preview argument vector contains no
`--no-enrich-cicd` negation flag, contradicting the claim that the
negation flag appears exactly once whenever the sub-flag is explicitly
false. -/
theorem claim4_counterexample :
    build_preview_cli_args 7 none (some enrichCicdOff) =
      ["preview", "7", "--enrich", "--enrich-depth", "standard"]
    ∧ "--no-enrich-cicd" ∉
        (["preview", "7", "--enrich", "--enrich-depth", "standard"] : List String) := by
  refine ⟨rfl, ?_⟩
  decide

/-- C4 (amended): for the generation argument vector the claim holds —
a disabled config emits no enrichment flags, an enabled one always emits
`--enrich` and `--enrich-depth <depth>` and exactly the negation flags
of sub-flags explicitly false (unset sub-flags emit nothing); the
preview argument vector emits only `--enrich` and `--enrich-depth` when
enabled, never negation flags. -/
theorem claim4_amended (seed : Nat) (out : String)
    (stack : Option TechStackConfig) (e : EnrichmentConfig) :
    (e.enabled = false →
      build_cli_args seed out stack (some e) =
        ["seed", toString seed, "--output", out, "--json"] ++ stackPairs stack
      ∧ build_preview_cli_args seed stack (some e) =
        ["preview", toString seed] ++ previewStackPairs stack)
    ∧ (e.enabled = true →
      build_cli_args seed out stack (some e) =
        ["seed", toString seed, "--output", out, "--json"] ++ stackPairs stack ++
          ["--enrich", "--enrich-depth", e.depth] ++
          negFlag "--no-enrich-cicd" e.cicd ++
          negFlag "--no-enrich-release" e.release ++
          negFlag "--no-enrich-logic" e.fill_logic ++
          negFlag "--no-enrich-tests" e.tests ++
          negFlag "--no-enrich-docker-prod" e.docker_prod ++
          negFlag "--no-enrich-linting" e.linting ++
          negFlag "--no-enrich-env" e.env_files ++
          negFlag "--no-enrich-docs" e.docs
      ∧ build_preview_cli_args seed stack (some e) =
        ["preview", toString seed] ++ previewStackPairs stack ++
          ["--enrich", "--enrich-depth", e.depth])
    ∧ (∀ flag : String, negFlag flag (some false) = [flag])
    ∧ (∀ flag : String, negFlag flag none = [] ∧ negFlag flag (some true) = []) := by
  refine ⟨fun hoff => ⟨?_, ?_⟩, fun hon => ⟨?_, ?_⟩, fun flag => rfl, fun flag => ⟨rfl, rfl⟩⟩
  · rw [build_cli_args_decomp]
    simp [enrichArgs, hoff]
  · rw [build_preview_cli_args_decomp]
    simp [previewEnrichArgs, hoff]
  · rw [build_cli_args_decomp]
    simp [enrichArgs, hon, List.append_assoc]
  · rw [build_preview_cli_args_decomp]
    simp [previewEnrichArgs, hon, List.append_assoc]

/-- C4: witness — the amended theorem applied to a concrete enabled
config whose only explicitly-false sub-flag is `cicd`. -/
theorem claim4_witness :
    enrichCicdOff.enabled = true ∧
    build_cli_args 1 "o" none (some enrichCicdOff) =
      ["seed", toString 1, "--output", "o", "--json"] ++ stackPairs none ++
        ["--enrich", "--enrich-depth", enrichCicdOff.depth] ++
        negFlag "--no-enrich-cicd" enrichCicdOff.cicd ++
        negFlag "--no-enrich-release" enrichCicdOff.release ++
        negFlag "--no-enrich-logic" enrichCicdOff.fill_logic ++
        negFlag "--no-enrich-tests" enrichCicdOff.tests ++
        negFlag "--no-enrich-docker-prod" enrichCicdOff.docker_prod ++
        negFlag "--no-enrich-linting" enrichCicdOff.linting ++
        negFlag "--no-enrich-env" enrichCicdOff.env_files ++
        negFlag "--no-enrich-docs" enrichCicdOff.docs :=
  ⟨rfl, ((claim4_amended 1 "o" none enrichCicdOff).2.1 rfl).1⟩

/-! Claims about the generation/preview response interpretation. -/

/-- C1: counterexample.  For a payload with `success = true`,
`files_generated = ["a.txt"]` and an explicit `message = "custom"`, the
result's message is the synthesized summary, not the payload's message —
so the message is defaulted even though the payload's message is
present, contradicting "defaulted only when the payload's message is
absent". -/
theorem claim1_counterexample :
    generate_project_interpret (some payloadWithMessage) false "" "" (some 0)
        42 "/home/u/out" 5 false [] =
      .ok { success := true, message := "Generated 1 files for seed 42 in 5ms",
            files_generated := ["a.txt"], output_path := "/home/u/out",
            duration_ms := 5 }
    ∧ payloadWithMessage.get "message" = some (Json.jstr "custom")
    ∧ "Generated 1 files for seed 42 in 5ms" ≠ "custom" := by
  refine ⟨rfl, rfl, ?_⟩
  decide

/-- C1 (amended): whenever the stdout payload's embedded `success` flag
is true, the result is successful, its `files_generated` are exactly the
string elements of the payload's `files_generated` array (empty when the
field is absent or not an array), its output path and duration are the
orchestrator's own values, and its message is always the synthesized
"Generated N files for seed S in Dms" summary — the payload's `message`
field is never consulted. -/
theorem claim1_amended (response : Json) (succ : Bool) (stdout stderr : String)
    (ec : Option Int) (seed : Nat) (out : String) (ms : Nat) (oe : Bool)
    (df : List String) (h : cliSuccessFlag response = true) :
    generate_project_interpret (some response) succ stdout stderr ec seed out ms oe df =
      .ok { success := true
            message := successMessage (payloadFiles response).length seed ms
            files_generated := payloadFiles response
            output_path := out
            duration_ms := ms } := by
  simp only [cliSuccessFlag] at h
  simp only [generate_project_interpret, payloadFiles]
  simp [h]

/-- C1: witness — the amended theorem applied to the concrete payload
with an explicit message. -/
theorem claim1_witness :
    cliSuccessFlag payloadWithMessage = true ∧
    generate_project_interpret (some payloadWithMessage) false "" "" (some 0)
        42 "/home/u/out" 5 false [] =
      .ok { success := true
            message := successMessage (payloadFiles payloadWithMessage).length 42 5
            files_generated := payloadFiles payloadWithMessage
            output_path := "/home/u/out"
            duration_ms := 5 } :=
  ⟨rfl, claim1_amended payloadWithMessage false "" "" (some 0) 42 "/home/u/out" 5
    false [] rfl⟩

/-- C2: counterexample.  With unparseable stdout, a failing exit status
and stderr `"error: missing dep\nfatal: aborting\n\n"` (ending in a blank
line), the result's message is the empty final line, not the last
non-empty line `"fatal: aborting"` the claim requires. -/
theorem claim2_counterexample :
    generate_project_interpret none false ""
        "error: missing dep\nfatal: aborting\n\n" (some 1) 42 "/o" 5 false [] =
      .ok { success := false, message := "", files_generated := [],
            output_path := "/o", duration_ms := 5 }
    ∧ lastNonEmptyLine "error: missing dep\nfatal: aborting\n\n" = some "fatal: aborting"
    ∧ ("" : String) ≠ "fatal: aborting" := by
  refine ⟨rfl, rfl, ?_⟩
  decide

/-- C2 (amended): when stdout is unparseable and the exit status
indicates failure, the message is the *last line* of stderr (empty when
stderr ends in a blank line) when stderr is non-empty, otherwise the
last line of stdout when stdout is non-empty, otherwise a message
synthesized from the raw exit code; "line" follows Rust's `str::lines`
(the trailing line terminator produces no extra line). -/
theorem claim2_amended (stdout stderr : String) (ec : Option Int) (seed : Nat)
    (out : String) (ms : Nat) (oe : Bool) (df : List String) :
    generate_project_interpret none false stdout stderr ec seed out ms oe df =
      .ok { success := false
            message :=
              if stderr ≠ "" then ((rustLines stderr).getLast?).getD "Generation failed"
              else if stdout ≠ "" then ((rustLines stdout).getLast?).getD "Generation failed"
              else "CLI exited with code " ++ debugOptionInt ec
            files_generated := []
            output_path := out
            duration_ms := ms }
    ∧ (∀ L, stderr ≠ "" → (rustLines stderr).getLast? = some L →
        generate_project_interpret none false stdout stderr ec seed out ms oe df =
          .ok { success := false, message := L, files_generated := [],
                output_path := out, duration_ms := ms })
    ∧ (stderr = "" → stdout = "" →
        generate_project_interpret none false stdout stderr ec seed out ms oe df =
          .ok { success := false, message := "CLI exited with code " ++ debugOptionInt ec,
                files_generated := [], output_path := out, duration_ms := ms }) := by
  refine ⟨rfl, fun L hs hL => ?_, fun hs ho => ?_⟩
  · simp [generate_project_interpret, hs, hL]
  · simp [generate_project_interpret, hs, ho]

/-- C2: witness — the amended theorem's stderr case at the spec's own
scenario-B input, where the last line and the last non-empty line
coincide. -/
theorem claim2_witness :
    ("error: missing dep\nfatal: aborting" : String) ≠ ""
    ∧ (rustLines "error: missing dep\nfatal: aborting").getLast? = some "fatal: aborting"
    ∧ generate_project_interpret none false ""
        "error: missing dep\nfatal: aborting" (some 1) 42 "/o" 5 false [] =
      .ok { success := false, message := "fatal: aborting", files_generated := [],
            output_path := "/o", duration_ms := 5 } :=
  ⟨by decide, rfl,
    ((claim2_amended "" "error: missing dep\nfatal: aborting" (some 1) 42 "/o" 5
      false []).2.1 "fatal: aborting" (by decide) rfl)⟩

/-- Shared: the generation interpretation returns `Ok` on every input —
all four branches of the source construct `Ok(GenerationResult { .. })`. -/
lemma generate_project_interpret_isOk (parsed : Option Json) (succ : Bool)
    (stdout stderr : String) (ec : Option Int) (seed : Nat) (out : String)
    (ms : Nat) (oe : Bool) (df : List String) :
    (generate_project_interpret parsed succ stdout stderr ec seed out ms oe df).isOk = true := by
  rcases parsed with _ | j
  · cases succ <;> simp [generate_project_interpret, Except.isOk, Except.toBool]
  · cases h : ((j.get "success").bind Json.asBool).getD false <;>
      simp [generate_project_interpret, h, Except.isOk, Except.toBool]

/-- C5: counterexample.  In preview mode, a process that exits
successfully but prints unparseable stdout produces a hard `Err` from
the parse fault alone, contradicting the claim that parse faults are
always absorbed into an `Ok` result in both modes. -/
theorem claim5_counterexample :
    preview_interpret true "garbage" "" (.error "expected value") =
      .error "Failed to parse CLI output: expected value. stdout: garbage"
    ∧ (preview_interpret true "garbage" "" (.error "expected value")).isOk = false := by
  exact ⟨rfl, rfl⟩

/-- C5 (amended): in generation mode a parse fault is always absorbed —
the interpretation returns `Ok` for every input, parseable or not; in
preview mode a parse fault on a successfully-exited process is always
surfaced as a hard `Err` built from the parse error and the raw
stdout. -/
theorem claim5_amended :
    (∀ (parsed : Option Json) (succ : Bool) (stdout stderr : String)
       (ec : Option Int) (seed : Nat) (out : String) (ms : Nat) (oe : Bool)
       (df : List String),
      (generate_project_interpret parsed succ stdout stderr ec seed out ms oe df).isOk = true)
    ∧ (∀ (stdout stderr e : String),
      preview_interpret true stdout stderr (.error e) =
        .error ("Failed to parse CLI output: " ++ e ++ ". stdout: " ++ stdout)) := by
  refine ⟨fun parsed succ stdout stderr ec seed out ms oe df =>
    generate_project_interpret_isOk parsed succ stdout stderr ec seed out ms oe df,
    fun stdout stderr e => ?_⟩
  simp [preview_interpret]

/-! Claims about registry loading and the process-executor error
discipline. -/

/-- C7: counterexample.  A registry file that exists but does not parse
makes `get_seeds` return a hard error, contradicting the claim that
registry corruption is never surfaced as a hard error when loading. -/
theorem claim7_counterexample :
    get_seeds (.present (.error "invalid json")) =
      .error ("Failed to parse registry: invalid json")
    ∧ (get_seeds (.present (.error "invalid json"))).isOk = false :=
  ⟨rfl, rfl⟩

/-- C7 (amended): the sweeper's registry load returns the empty,
version-stamped structure when the file is absent or unparsable, and
a subsequent sweep write replaces the corrupt file with the merge of the
empty registry; `get_seeds`, however, returns the empty list only for an
absent file and surfaces an unparsable file as a hard parse error. -/
theorem claim7_amended (now e msg : String) (r : RegistryData)
    (step : Nat → SweepStep) (count start : Nat) (batch : List SeedEntry) :
    load_registry_sweeper .absent now = .ok (emptyRegistry now)
    ∧ load_registry_sweeper (.present (.error e)) now = .ok (emptyRegistry now)
    ∧ load_registry_sweeper (.present (.ok r)) now = .ok r
    ∧ load_registry_sweeper (.unreadable msg) now =
        .error ("Failed to read registry: " ++ msg)
    ∧ (emptyRegistry now).entries = [] ∧ (emptyRegistry now).version = "1.0.0"
    ∧ get_seeds .absent = .ok []
    ∧ get_seeds (.present (.error e)) = .error ("Failed to parse registry: " ++ e)
    ∧ get_seeds (.present (.ok r)) = .ok r.entries
    ∧ (sweepLoop step start now count = .ok batch →
        run_sweeper_model step count (some start) (.present (.error e)) now =
          .ok (batch, mergeRegistry (emptyRegistry now) batch now)) := by
  refine ⟨rfl, rfl, rfl, rfl, rfl, rfl, rfl, rfl, rfl, fun h => ?_⟩
  simp [run_sweeper_model, h, load_registry_sweeper, Bind.bind, Except.bind]

/-- C7: witness — the amended theorem at a concrete corrupt registry
file and a one-iteration sweep. -/
theorem claim7_witness :
    sweepLoop (fun _ => .ran false none) 3 "t1" 1 = .ok []
    ∧ run_sweeper_model (fun _ => .ran false none) 1 (some 3)
        (.present (.error "oops")) "t1" =
      .ok ([], mergeRegistry (emptyRegistry "t1") [] "t1") :=
  ⟨rfl, (claim7_amended "t1" "oops" "m" (emptyRegistry "t0")
    (fun _ => .ran false none) 1 3 []).2.2.2.2.2.2.2.2.2 rfl⟩

/-- C8: counterexample.  A process that ran and exited with code 1 while
printing a payload whose `success` flag is true: the executor surfaces
`success = false`, but `generate_project` trusts the payload and returns
`Ok` carrying `success: true` — contradicting the claim that a non-zero
exit always makes `generate_project` return `Ok` carrying
`success: false`. -/
theorem claim8_counterexample :
    execute_cli_internal
        (some { code := some 1, stdout := "\x7b\"success\": true\x7d", stderr := "" })
        "upg" [] =
      .ok (false, "\x7b\"success\": true\x7d", "", some 1)
    ∧ generate_project_interpret (some (Json.jobj [("success", Json.jbool true)]))
        false "\x7b\"success\": true\x7d" "" (some 1) 7 "/o" 3 false [] =
      .ok { success := true, message := "Generated 0 files for seed 7 in 3ms",
            files_generated := [], output_path := "/o", duration_ms := 3 } :=
  ⟨rfl, rfl⟩

/-- C8 (amended): the executor returns `Err` exactly when the spawn
itself fails; a process that ran is always `Ok`, with a non-zero (or
absent) exit code surfaced as `success = false` in the outcome; the
generation interpretation then never returns `Err` for a failed run, and
carries `success: false` whenever the stdout payload does not itself
claim success (when the payload claims success, the payload wins and the
result carries `success: true`). -/
theorem claim8_amended (cmd : String) (args : List String) (o : RawOutput)
    (parsed : Option Json) (stdout stderr : String) (ec : Option Int)
    (seed : Nat) (out : String) (ms : Nat) (oe : Bool) (df : List String) :
    (∀ sp : Option RawOutput,
      (execute_cli_internal sp cmd args).isOk = false ↔ sp = none)
    ∧ execute_cli_internal (some o) cmd args =
        .ok (statusSuccess o.code, o.stdout, o.stderr, o.code)
    ∧ (∀ c : Int, c ≠ 0 → statusSuccess (some c) = false)
    ∧ statusSuccess none = false
    ∧ (generate_project_interpret parsed false stdout stderr ec seed out ms oe df).isOk = true
    ∧ (parsedSuccessFlag parsed = false →
        ∀ res, generate_project_interpret parsed false stdout stderr ec seed out ms oe df =
            .ok res →
          res.success = false) := by
  refine ⟨fun sp => ?_, rfl, fun c hc => ?_, rfl,
    generate_project_interpret_isOk parsed false stdout stderr ec seed out ms oe df,
    fun hflag res hres => ?_⟩
  · rcases sp with _ | o' <;>
      simp [execute_cli_internal, Except.isOk, Except.toBool]
  · simp [statusSuccess, hc]
  · rcases parsed with _ | j
    · simp only [generate_project_interpret] at hres
      split at hres <;> first
        | exact (Except.ok.inj hres) ▸ rfl
        | simp_all
    · simp only [parsedSuccessFlag, cliSuccessFlag] at hflag
      simp only [generate_project_interpret, hflag] at hres
      split at hres <;> first
        | exact (Except.ok.inj hres) ▸ rfl
        | simp_all

/-- C8: witness — the amended theorem at a run that exited 1 with plain
text on stderr and unparseable stdout. -/
theorem claim8_witness :
    statusSuccess (some 1) = false
    ∧ parsedSuccessFlag none = false
    ∧ ({ success := false, message := "boom", files_generated := [],
         output_path := "/o", duration_ms := 2 } : GenerationResult).success = false :=
  ⟨(claim8_amended "upg" [] { code := some 1, stdout := "", stderr := "boom" }
      none "" "boom" (some 1) 1 "/o" 2 false []).2.2.1 1 (by decide),
   rfl,
   (claim8_amended "upg" [] { code := some 1, stdout := "", stderr := "boom" }
      none "" "boom" (some 1) 1 "/o" 2 false []).2.2.2.2.2 rfl
     { success := false, message := "boom", files_generated := [],
       output_path := "/o", duration_ms := 2 } rfl⟩

/-- C9 (confirmed): path resolution first strips a single leading `./`,
returns the resulting path unchanged when it is absolute, otherwise
joins it onto the home directory when one is obtainable, otherwise onto
the current working directory, and fails exactly when the path is
relative and both lookups fail.  The first conjunct is the refinement
against `resolveSpec`, the spec's own wording of the precedence
chain. -/
theorem claim9_confirmed (p : String) (home cwd : Option String) :
    resolve_output_path p home cwd = resolveSpec p home cwd
    ∧ (strStarts "/" (if strStarts "./" p then p.drop 2 else p) = true →
        resolve_output_path p home cwd = .ok (if strStarts "./" p then p.drop 2 else p))
    ∧ (strStarts "/" (if strStarts "./" p then p.drop 2 else p) = false →
        ∀ h, home = some h →
          resolve_output_path p home cwd =
            .ok (pathJoin h (if strStarts "./" p then p.drop 2 else p)))
    ∧ (strStarts "/" (if strStarts "./" p then p.drop 2 else p) = false →
        home = none → ∀ c, cwd = some c →
          resolve_output_path p home cwd =
            .ok (pathJoin c (if strStarts "./" p then p.drop 2 else p)))
    ∧ ((resolve_output_path p home cwd).isOk = false ↔
        (strStarts "/" (if strStarts "./" p then p.drop 2 else p) = false
          ∧ home = none ∧ cwd = none)) := by
  refine ⟨?_, fun habs => ?_, fun hrel h hh => ?_, fun hrel hh c hc => ?_, ?_⟩
  · rcases home with _ | h <;> rcases cwd with _ | c <;>
      simp only [resolve_output_path, resolveSpec]
  · simp [resolve_output_path, habs]
  · subst hh
    simp [resolve_output_path, hrel]
  · subst hh; subst hc
    simp [resolve_output_path, hrel]
  · rcases home with _ | h <;> rcases cwd with _ | c <;>
      cases hc : strStarts "/" (if strStarts "./" p then p.drop 2 else p) <;>
      simp [resolve_output_path, hc, Except.isOk, Except.toBool]

/-- C9: witness — a relative path with a leading `./` resolved against a
present home directory. -/
theorem claim9_witness :
    strStarts "/" (if strStarts "./" "./proj" then "./proj".drop 2 else "./proj") = false
    ∧ resolve_output_path "./proj" (some "/home/u") none = .ok "/home/u/proj" :=
  ⟨by decide,
    (claim9_confirmed "./proj" (some "/home/u") none).2.2.1 (by decide) "/home/u" rfl⟩

/-! Supporting lemmas about the sweep loop and the registry merge. -/

/-- A successful sweep loop collects exactly the validated batch. -/
lemma sweepLoop_eq_validatedBatch (step : Nat → SweepStep) (start : Nat) (now : String) :
    ∀ (n : Nat) (batch : List SeedEntry),
      sweepLoop step start now n = .ok batch →
      batch = validatedBatch step start now n := by
  intro n
  induction n with
  | zero =>
    intro batch h
    simp only [sweepLoop, Except.ok.injEq] at h
    subst h
    rfl
  | succ n ih =>
    intro batch h
    simp only [sweepLoop] at h
    rcases hp : sweepLoop step start now n with e | prev <;> rw [hp] at h
    · simp at h
    · have hprev := ih prev hp
      rcases hs : step n with msg | ⟨ok, parsed⟩ <;> rw [hs] at h
      · simp at h
      · cases ok
        · simp only [Bool.false_eq_true, if_false, Except.ok.injEq] at h
          subst h
          rw [hprev]
          simp [validatedBatch, List.range_succ, List.filterMap_cons, hs]
        · rcases parsed with _ | resp
          · simp only [if_true, Except.ok.injEq] at h
            subst h
            rw [hprev]
            simp [validatedBatch, List.range_succ, List.filterMap_cons, hs]
          · cases hr : resp.success
            · simp only [if_true, hr, Bool.false_eq_true, if_false,
                Except.ok.injEq] at h
              subst h
              rw [hprev]
              simp [validatedBatch, List.range_succ, List.filterMap_cons, hs, hr]
            · rcases hd : resp.data with _ | data <;>
                simp only [if_true, hr, hd, Except.ok.injEq] at h <;> subst h <;>
                rw [hprev] <;>
                simp [validatedBatch, List.range_succ, List.filterMap_cons, hs, hr, hd]

/-- The seeds collected by a sweep are a sublist of the wrapped seed
range. -/
lemma validatedBatch_seeds_sublist (step : Nat → SweepStep) (start : Nat)
    (now : String) :
    ∀ n : Nat,
      ((validatedBatch step start now n).map (fun e => e.seed)).Sublist
        ((List.range n).map (fun i => (start + i) % 2 ^ 64)) := by
  intro n
  induction n with
  | zero => simp [validatedBatch]
  | succ n ih =>
    have hsplit : validatedBatch step start now (n + 1) =
        validatedBatch step start now n ++
          (List.filterMap (fun i =>
            match step i with
            | .ran true (some response) =>
              if response.success then
                (response.data).map
                  (fun data => mkSeedEntry ((start + i) % 2 ^ 64) data now)
              else none
            | _ => none) [n]) := by
      simp [validatedBatch, List.range_succ]
    rw [hsplit, List.map_append, List.range_succ, List.map_append]
    refine List.Sublist.append ih ?_
    rcases hs : step n with msg | ⟨ok, parsed⟩
    · simp [List.filterMap_cons, hs]
    · cases ok
      · simp [List.filterMap_cons, hs]
      · rcases parsed with _ | resp
        · simp [List.filterMap_cons, hs]
        · cases hr : resp.success
          · simp [List.filterMap_cons, hs, hr]
          · rcases hd : resp.data with _ | data
            · simp [List.filterMap_cons, hs, hr, hd]
            · simp [List.filterMap_cons, hs, hr, hd, mkSeedEntry]

/-- The wrapped seed range `(start + i) % 2 ^ 64`, `i < n`, has no
duplicates as long as `n` does not exceed the modulus. -/
lemma rangeSeeds_nodup (start n : Nat) (hn : n ≤ 2 ^ 64) :
    ((List.range n).map (fun i => (start + i) % 2 ^ 64)).Nodup := by
  refine List.Nodup.map_on ?_ (List.nodup_range n)
  intro i hi j hj hij
  have hi' : i < n := List.mem_range.mp hi
  have hj' : j < n := List.mem_range.mp hj
  have hm : Nat.ModEq (2 ^ 64) i j :=
    Nat.ModEq.add_left_cancel' start hij
  have : i % 2 ^ 64 = j % 2 ^ 64 := hm
  rwa [Nat.mod_eq_of_lt (lt_of_lt_of_le hi' hn),
    Nat.mod_eq_of_lt (lt_of_lt_of_le hj' hn)] at this

/-- A successful sweep's batch has pairwise-distinct seeds. -/
lemma sweepBatch_seeds_nodup (step : Nat → SweepStep) (start : Nat)
    (now : String) (n : Nat) (batch : List SeedEntry)
    (h : sweepLoop step start now n = .ok batch) (hn : n ≤ 2 ^ 64) :
    (batch.map (fun e => e.seed)).Nodup := by
  rw [sweepLoop_eq_validatedBatch step start now n batch h]
  exact (validatedBatch_seeds_sublist step start now n).nodup
    (rangeSeeds_nodup start n hn)

/-- C6 (confirmed): the sweeper merge inserts a batch entry only when
its seed is not already present (first-write-wins, existing entries are
never overwritten), and after the write the registry has at most one
entry per seed, `total_entries` equal to the number of entries, and a
freshly-stamped `generated_at`. -/
theorem claim6_confirmed (step : Nat → SweepStep) (count start : Nat)
    (now now2 : String) (old : RegistryData) (batch : List SeedEntry)
    (hloop : sweepLoop step start now count = .ok batch)
    (hcount : count ≤ 2 ^ 64)
    (hold : (old.entries.map (fun e => e.seed)).Nodup)
    (hlen : old.entries.length + batch.length < 2 ^ 32) :
    (mergeRegistry old batch now2).entries =
      old.entries ++ batch.filter
        (fun e => !decide (e.seed ∈ old.entries.map (fun x => x.seed)))
    ∧ ((mergeRegistry old batch now2).entries.map (fun e => e.seed)).Nodup
    ∧ (mergeRegistry old batch now2).total_entries =
        (mergeRegistry old batch now2).entries.length
    ∧ (mergeRegistry old batch now2).generated_at = now2 := by
  have hbatch : (batch.map (fun e => e.seed)).Nodup :=
    sweepBatch_seeds_nodup step start now count batch hloop hcount
  refine ⟨rfl, ?_, ?_, rfl⟩
  · simp only [mergeRegistry, List.map_append]
    refine List.Nodup.append hold ?_ ?_
    · exact ((List.filter_sublist batch).map (fun e => e.seed)).nodup hbatch
    · intro a ha hb
      rcases List.mem_map.mp hb with ⟨e, he, rfl⟩
      rcases List.mem_filter.mp he with ⟨-, hpred⟩
      simp only [Bool.not_eq_eq_eq_not, Bool.not_true, decide_eq_false_iff_not] at hpred
      exact hpred ha
  · simp only [mergeRegistry]
    have hle : (old.entries ++ batch.filter
        (fun e => !decide (e.seed ∈ old.entries.map (fun x => x.seed)))).length
        < 2 ^ 32 := by
      rw [List.length_append]
      calc old.entries.length + (batch.filter _).length
          ≤ old.entries.length + batch.length :=
            Nat.add_le_add_left (List.length_filter_le _ batch) _
        _ < 2 ^ 32 := hlen
    exact Nat.mod_eq_of_lt hle

/-- C6: witness — a one-seed sweep merged into an empty registry. -/
theorem claim6_witness :
    sweepLoop sweepStepConst 5 "t1" 1 = .ok [mkSeedEntry 5 sweepData "t1"]
    ∧ (1 : Nat) ≤ 2 ^ 64
    ∧ (((emptyRegistry "t0").entries.map (fun e => e.seed)).Nodup)
    ∧ (emptyRegistry "t0").entries.length + [mkSeedEntry 5 sweepData "t1"].length < 2 ^ 32
    ∧ ((mergeRegistry (emptyRegistry "t0") [mkSeedEntry 5 sweepData "t1"] "t2").entries =
        (emptyRegistry "t0").entries ++ [mkSeedEntry 5 sweepData "t1"].filter
          (fun e => !decide (e.seed ∈ (emptyRegistry "t0").entries.map (fun x => x.seed)))
      ∧ (((mergeRegistry (emptyRegistry "t0") [mkSeedEntry 5 sweepData "t1"] "t2").entries.map
          (fun e => e.seed)).Nodup)
      ∧ (mergeRegistry (emptyRegistry "t0") [mkSeedEntry 5 sweepData "t1"] "t2").total_entries =
          (mergeRegistry (emptyRegistry "t0") [mkSeedEntry 5 sweepData "t1"] "t2").entries.length
      ∧ (mergeRegistry (emptyRegistry "t0") [mkSeedEntry 5 sweepData "t1"] "t2").generated_at =
          "t2") :=
  ⟨rfl, by decide, by simp [emptyRegistry], by decide,
    claim6_confirmed sweepStepConst 1 5 "t1" "t2" (emptyRegistry "t0")
      [mkSeedEntry 5 sweepData "t1"] rfl (by decide) (by simp [emptyRegistry]) (by decide)⟩

/-- C10 (confirmed): `run_sweeper` returns the full validated batch of
the sweep — the same list regardless of the registry's prior contents —
while the merge appends only the entries whose seed was not already
present; an entry whose seed is already registered is still returned but
is not part of the appended segment. -/
theorem claim10_confirmed (step : Nat → SweepStep) (count start : Nat)
    (now : String) (old other : RegistryData) (batch : List SeedEntry)
    (hloop : sweepLoop step start now count = .ok batch) :
    run_sweeper_model step count (some start) (.present (.ok old)) now =
      .ok (batch, mergeRegistry old batch now)
    ∧ run_sweeper_model step count (some start) (.present (.ok other)) now =
      .ok (batch, mergeRegistry other batch now)
    ∧ batch = validatedBatch step start now count
    ∧ (∀ e ∈ batch, e.seed ∈ old.entries.map (fun x => x.seed) →
        e ∉ batch.filter (fun x => !decide (x.seed ∈ old.entries.map (fun y => y.seed)))) := by
  refine ⟨?_, ?_, sweepLoop_eq_validatedBatch step start now count batch hloop,
    fun e he hseed hmem => ?_⟩
  · simp [run_sweeper_model, hloop, load_registry_sweeper, Bind.bind, Except.bind]
  · simp [run_sweeper_model, hloop, load_registry_sweeper, Bind.bind, Except.bind]
  · rcases List.mem_filter.mp hmem with ⟨-, hpred⟩
    simp only [Bool.not_eq_eq_eq_not, Bool.not_true, decide_eq_false_iff_not] at hpred
    exact hpred hseed

/-- C10: witness — a sweep revalidating the already-registered seed 5:
the entry is returned, yet the written registry gains nothing. -/
theorem claim10_witness :
    sweepLoop sweepStepConst 5 "t1" 1 = .ok [mkSeedEntry 5 sweepData "t1"]
    ∧ run_sweeper_model sweepStepConst 1 (some 5) (.present (.ok preloadedRegistry)) "t1" =
        .ok ([mkSeedEntry 5 sweepData "t1"],
          mergeRegistry preloadedRegistry [mkSeedEntry 5 sweepData "t1"] "t1")
    ∧ (mergeRegistry preloadedRegistry [mkSeedEntry 5 sweepData "t1"] "t1").entries =
        preloadedRegistry.entries :=
  ⟨rfl,
    (claim10_confirmed sweepStepConst 1 5 "t1" preloadedRegistry
      (emptyRegistry "tx") [mkSeedEntry 5 sweepData "t1"] rfl).1,
    rfl⟩

end UPG
